import Mathlib

/-!
Verification of the radio-telemetry-tracker tower-comms package.

This file gives a shallow embedding of the packages core modules and proves
or refutes the frozen claims about them.

Embedded modules and conventions:

* Wire packets. The repository ships only the on-demand protobuf compiler
  (proto/compiler.py); the schema file packets.proto and the generated
  packets_pb2 module are absent from the sources. The tagged-union packet
  type and its byte codec below are therefore modelled from the spec, which
  fixes an envelope of origin_node_id and timestamp_us common to all
  variants plus the per-variant fields. Bytes are Nat values below 256 in
  lists; integers are serialized as base-128 varints as protobuf does.
  Floating-point fields never participate in arithmetic in this package,
  only in copying and serialization, so they are modelled by the natural
  number giving their bit pattern.
* interfaces.py: SimulatedMeshInterface over an explicit process-wide node
  table threaded through every operation. The secrets.randbelow(100) draw
  in the acknowledgment simulation is modelled by an explicit rand
  argument; the two optional acknowledgment callbacks are modelled by two
  booleans saying whether a callback is registered, and callback
  invocations are returned as an event list.
* simulated_mesh.py: the second, historical SimulatedMeshInterface variant,
  whose packet id comes from the builtin hash of the pair of sender id and
  payload. That hash is process-seeded, so it is passed in as an explicit
  function argument h; every statement proved about this variant holds for
  each choice of h, and concrete evaluations use a stand-in hash.
* transceiver.py: Transceiver as a record of the start and stop flags and
  the send queue; the send loop body is embedded as a step function that
  reports the transport call it makes.
* tower_comms.py: the typed dispatcher. Python callbacks are opaque, so a
  registered handler is modelled by an identity, its one_time flag, and
  the list of handlers its callback appends to the same handler list when
  invoked, which is exactly the side effect the mid-dispatch registration
  claims are about. A dispatch pass returns the ordered list of invoked
  handler identities.
-/

/-! ## Wire packet codec, modelled from the spec -/

/-- Base-128 varint encoder with explicit fuel; the fuel argument only
bounds the recursion and `encVarint` supplies enough of it. -/
def encVarintAux : Nat → Nat → List Nat
  | 0, n => [n % 128]
  | fuel + 1, n => if n < 128 then [n] else (n % 128 + 128) :: encVarintAux fuel (n / 128)

/-- Serialize a natural number as a protobuf-style base-128 varint. -/
def encVarint (n : Nat) : List Nat :=
  encVarintAux n n

/-- Parse a base-128 varint off the front of a byte list, returning the
value and the unconsumed tail. -/
def decVarint : List Nat → Option (Nat × List Nat)
  | [] => none
  | b :: rest =>
    if b < 128 then some (b, rest)
    else
      match decVarint rest with
      | some (v, r) => some (v * 128 + (b - 128), r)
      | none => none

theorem decVarint_encVarintAux (fuel : Nat) :
    ∀ n rest, n ≤ fuel → decVarint (encVarintAux fuel n ++ rest) = some (n, rest) := by
  induction fuel with
  | zero =>
    intro n rest h
    have hz : n = 0 := by omega
    subst hz
    simp [encVarintAux, decVarint]
  | succ fuel ih =>
    intro n rest h
    by_cases hn : n < 128
    · simp [encVarintAux, hn, decVarint]
    · have hdiv : n / 128 ≤ fuel := by
        have : n / 128 < n := Nat.div_lt_self (by omega) (by omega)
        omega
      have hrec := ih (n / 128) rest hdiv
      simp only [encVarintAux, hn, if_false, List.cons_append]
      simp only [decVarint, hrec]
      have hge : ¬ (n % 128 + 128 < 128) := by omega
      simp only [hge, if_false]
      have hval : n / 128 * 128 + (n % 128 + 128 - 128) = n := by omega
      rw [hval]

theorem decVarint_encVarint (n : Nat) (rest : List Nat) :
    decVarint (encVarint n ++ rest) = some (n, rest) :=
  decVarint_encVarintAux n n rest le_rfl

/-- Serialize a boolean as a single byte. -/
def encBool (b : Bool) : List Nat :=
  [if b then 1 else 0]

/-- Parse a boolean byte off the front of a byte list. -/
def decBool : List Nat → Option (Bool × List Nat)
  | [] => none
  | b :: rest =>
    if b = 0 then some (false, rest)
    else if b = 1 then some (true, rest)
    else none

theorem decBool_encBool (b : Bool) (rest : List Nat) :
    decBool (encBool b ++ rest) = some (b, rest) := by
  cases b <;> simp [encBool, decBool]

/-- Serialize a repeated integer field: a varint count followed by the
varint elements. -/
def encNatList (xs : List Nat) : List Nat :=
  encVarint xs.length ++ (xs.map encVarint).flatten

/-- Parse exactly k varints off the front of a byte list. -/
def decVarints : Nat → List Nat → Option (List Nat × List Nat)
  | 0, bs => some ([], bs)
  | k + 1, bs =>
    match decVarint bs with
    | some (v, r) =>
      match decVarints k r with
      | some (vs, r2) => some (v :: vs, r2)
      | none => none
    | none => none

theorem decVarints_flatten (xs : List Nat) (rest : List Nat) :
    decVarints xs.length ((xs.map encVarint).flatten ++ rest) = some (xs, rest) := by
  induction xs generalizing rest with
  | nil => simp [decVarints]
  | cons x xs ih =>
    simp only [List.map_cons, List.flatten_cons, List.length_cons, List.append_assoc,
      decVarints, decVarint_encVarint, ih]

/-- Parse a repeated integer field off the front of a byte list. -/
def decNatList (bs : List Nat) : Option (List Nat × List Nat) :=
  match decVarint bs with
  | some (k, r) => decVarints k r
  | none => none

theorem decNatList_encNatList (xs : List Nat) (rest : List Nat) :
    decNatList (encNatList xs ++ rest) = some (xs, rest) := by
  simp only [encNatList, List.append_assoc, decNatList, decVarint_encVarint, decVarints_flatten]

/-- Serialize a string as the varint-coded list of its character codes. -/
def encString (s : String) : List Nat :=
  encNatList (s.data.map Char.toNat)

/-- Parse a string field off the front of a byte list. -/
def decString (bs : List Nat) : Option (String × List Nat) :=
  match decNatList bs with
  | some (ns, r) => some (String.mk (ns.map Char.ofNat), r)
  | none => none

theorem decString_encString (s : String) (rest : List Nat) :
    decString (encString s ++ rest) = some (s, rest) := by
  simp only [encString, decString, decNatList_encNatList, List.map_map]
  have : (s.data.map (Char.ofNat ∘ Char.toNat)) = s.data := by
    apply List.map_congr_left ?_ |>.trans (List.map_id s.data)
    intro c _
    exact Char.ofNat_toNat c
  simp [this]

/-- Envelope common to every packet variant: the origin node id and the
send timestamp in microseconds. -/
structure BasePacket where
  origin_node_id : Nat
  timestamp : Nat
deriving DecidableEq

def encBase (b : BasePacket) : List Nat :=
  encVarint b.origin_node_id ++ encVarint b.timestamp

def decBase (bs : List Nat) : Option (BasePacket × List Nat) :=
  match decVarint bs with
  | some (o, r) =>
    match decVarint r with
    | some (t, r2) => some (⟨o, t⟩, r2)
    | none => none
  | none => none

theorem decBase_encBase (b : BasePacket) (rest : List Nat) :
    decBase (encBase b ++ rest) = some (b, rest) := by
  simp [encBase, decBase, decVarint_encVarint]

/-- Configuration packet: envelope plus the radio configuration fields.
Float-typed fields hold the bit pattern of the float value. -/
structure ConfigPacket where
  base_packet : BasePacket
  gain : Nat
  sampling_rate : Nat
  center_frequency : Nat
  run_num : Nat
  enable_test_data : Bool
  ping_width_ms : Nat
  ping_min_snr : Nat
  ping_max_len_mult : Nat
  ping_min_len_mult : Nat
  target_frequencies : List Nat
deriving DecidableEq

def encConfig (m : ConfigPacket) : List Nat :=
  encBase m.base_packet ++ encVarint m.gain ++ encVarint m.sampling_rate ++
    encVarint m.center_frequency ++ encVarint m.run_num ++ encBool m.enable_test_data ++
    encVarint m.ping_width_ms ++ encVarint m.ping_min_snr ++ encVarint m.ping_max_len_mult ++
    encVarint m.ping_min_len_mult ++ encNatList m.target_frequencies

def decConfig (bs : List Nat) : Option (ConfigPacket × List Nat) :=
  match decBase bs with
  | none => none
  | some (b, r0) =>
    match decVarint r0 with
    | none => none
    | some (g, r1) =>
      match decVarint r1 with
      | none => none
      | some (sr, r2) =>
        match decVarint r2 with
        | none => none
        | some (cf, r3) =>
          match decVarint r3 with
          | none => none
          | some (rn, r4) =>
            match decBool r4 with
            | none => none
            | some (etd, r5) =>
              match decVarint r5 with
              | none => none
              | some (pw, r6) =>
                match decVarint r6 with
                | none => none
                | some (ps, r7) =>
                  match decVarint r7 with
                  | none => none
                  | some (pmax, r8) =>
                    match decVarint r8 with
                    | none => none
                    | some (pmin, r9) =>
                      match decNatList r9 with
                      | none => none
                      | some (tf, r10) =>
                        some (⟨b, g, sr, cf, rn, etd, pw, ps, pmax, pmin, tf⟩, r10)

theorem decConfig_encConfig (m : ConfigPacket) (rest : List Nat) :
    decConfig (encConfig m ++ rest) = some (m, rest) := by
  simp [encConfig, decConfig, decBase_encBase, decVarint_encVarint, decBool_encBool,
    decNatList_encNatList]

/-- No-config response packet: envelope only. -/
structure NoConfigPacket where
  base_packet : BasePacket
deriving DecidableEq

def encNoConfig (m : NoConfigPacket) : List Nat :=
  encBase m.base_packet

def decNoConfig (bs : List Nat) : Option (NoConfigPacket × List Nat) :=
  match decBase bs with
  | some (b, r) => some (⟨b⟩, r)
  | none => none

theorem decNoConfig_encNoConfig (m : NoConfigPacket) (rest : List Nat) :
    decNoConfig (encNoConfig m ++ rest) = some (m, rest) := by
  simp [encNoConfig, decNoConfig, decBase_encBase]

/-- Ping packet: envelope plus the detection fields, floats as bit
patterns. -/
structure PingPacket where
  base_packet : BasePacket
  frequency : Nat
  amplitude : Nat
  latitude : Nat
  longitude : Nat
  altitude : Nat
deriving DecidableEq

def encPing (m : PingPacket) : List Nat :=
  encBase m.base_packet ++ encVarint m.frequency ++ encVarint m.amplitude ++
    encVarint m.latitude ++ encVarint m.longitude ++ encVarint m.altitude

def decPing (bs : List Nat) : Option (PingPacket × List Nat) :=
  match decBase bs with
  | none => none
  | some (b, r0) =>
    match decVarint r0 with
    | none => none
    | some (f, r1) =>
      match decVarint r1 with
      | none => none
      | some (a, r2) =>
        match decVarint r2 with
        | none => none
        | some (la, r3) =>
          match decVarint r3 with
          | none => none
          | some (lo, r4) =>
            match decVarint r4 with
            | none => none
            | some (al, r5) => some (⟨b, f, a, la, lo, al⟩, r5)

theorem decPing_encPing (m : PingPacket) (rest : List Nat) :
    decPing (encPing m ++ rest) = some (m, rest) := by
  simp [encPing, decPing, decBase_encBase, decVarint_encVarint]

/-- No-ping response packet: envelope only. -/
structure NoPingPacket where
  base_packet : BasePacket
deriving DecidableEq

def encNoPing (m : NoPingPacket) : List Nat :=
  encBase m.base_packet

def decNoPing (bs : List Nat) : Option (NoPingPacket × List Nat) :=
  match decBase bs with
  | some (b, r) => some (⟨b⟩, r)
  | none => none

theorem decNoPing_encNoPing (m : NoPingPacket) (rest : List Nat) :
    decNoPing (encNoPing m ++ rest) = some (m, rest) := by
  simp [encNoPing, decNoPing, decBase_encBase]

/-- Config request packet: envelope plus the requested node id, which the
sending code populates from RequestConfigData. -/
structure RequestConfigPacket where
  base_packet : BasePacket
  node_id : Nat
deriving DecidableEq

def encRequestConfig (m : RequestConfigPacket) : List Nat :=
  encBase m.base_packet ++ encVarint m.node_id

def decRequestConfig (bs : List Nat) : Option (RequestConfigPacket × List Nat) :=
  match decBase bs with
  | none => none
  | some (b, r0) =>
    match decVarint r0 with
    | some (nid, r1) => some (⟨b, nid⟩, r1)
    | none => none

theorem decRequestConfig_encRequestConfig (m : RequestConfigPacket) (rest : List Nat) :
    decRequestConfig (encRequestConfig m ++ rest) = some (m, rest) := by
  simp [encRequestConfig, decRequestConfig, decBase_encBase, decVarint_encVarint]

/-- Ping request packet: envelope plus the requested node id. -/
structure RequestPingPacket where
  base_packet : BasePacket
  node_id : Nat
deriving DecidableEq

def encRequestPing (m : RequestPingPacket) : List Nat :=
  encBase m.base_packet ++ encVarint m.node_id

def decRequestPing (bs : List Nat) : Option (RequestPingPacket × List Nat) :=
  match decBase bs with
  | none => none
  | some (b, r0) =>
    match decVarint r0 with
    | some (nid, r1) => some (⟨b, nid⟩, r1)
    | none => none

theorem decRequestPing_encRequestPing (m : RequestPingPacket) (rest : List Nat) :
    decRequestPing (encRequestPing m ++ rest) = some (m, rest) := by
  simp [encRequestPing, decRequestPing, decBase_encBase, decVarint_encVarint]

/-- Error packet: envelope plus the error message. -/
structure ErrorPacket where
  base_packet : BasePacket
  error_message : String
deriving DecidableEq

def encError (m : ErrorPacket) : List Nat :=
  encBase m.base_packet ++ encString m.error_message

def decError (bs : List Nat) : Option (ErrorPacket × List Nat) :=
  match decBase bs with
  | none => none
  | some (b, r0) =>
    match decString r0 with
    | some (msg, r1) => some (⟨b, msg⟩, r1)
    | none => none

theorem decError_encError (m : ErrorPacket) (rest : List Nat) :
    decError (encError m ++ rest) = some (m, rest) := by
  simp [encError, decError, decBase_encBase, decString_encString]

/-- The wire packet: a tagged union with at most one active variant. The
unset constructor models a message with no variant set, which the spec
fixes as a decode success to be ignored by the dispatcher. -/
inductive MeshPacket where
  | unset
  | config (m : ConfigPacket)
  | no_config (m : NoConfigPacket)
  | ping (m : PingPacket)
  | no_ping (m : NoPingPacket)
  | request_config (m : RequestConfigPacket)
  | request_ping (m : RequestPingPacket)
  | error (m : ErrorPacket)
deriving DecidableEq

/-- Packet serialization: a tag byte naming the active variant followed by
the variant fields; the empty message serializes to the empty byte string.
This embeds SerializeToString on the spec-modelled schema. -/
def serialize_to_string : MeshPacket → List Nat
  | .unset => []
  | .config m => 1 :: encConfig m
  | .no_config m => 2 :: encNoConfig m
  | .ping m => 3 :: encPing m
  | .no_ping m => 4 :: encNoPing m
  | .request_config m => 5 :: encRequestConfig m
  | .request_ping m => 6 :: encRequestPing m
  | .error m => 7 :: encError m

/-- Packet parsing, the inverse direction of serialize_to_string; it fails
on malformed bytes and requires the whole input to be consumed. This
embeds ParseFromString on the spec-modelled schema. -/
def parse_from_string (bs : List Nat) : Option MeshPacket :=
  match bs with
  | [] => some .unset
  | t :: rest =>
    match t with
    | 1 => match decConfig rest with
           | some (m, []) => some (.config m)
           | _ => none
    | 2 => match decNoConfig rest with
           | some (m, []) => some (.no_config m)
           | _ => none
    | 3 => match decPing rest with
           | some (m, []) => some (.ping m)
           | _ => none
    | 4 => match decNoPing rest with
           | some (m, []) => some (.no_ping m)
           | _ => none
    | 5 => match decRequestConfig rest with
           | some (m, []) => some (.request_config m)
           | _ => none
    | 6 => match decRequestPing rest with
           | some (m, []) => some (.request_ping m)
           | _ => none
    | 7 => match decError rest with
           | some (m, []) => some (.error m)
           | _ => none
    | _ => none

/-- C1: decoding the bytes produced by encoding any well-formed packet of
any variant yields a packet equal to the original field-for-field. -/
theorem parse_serialize_roundtrip (p : MeshPacket) :
    parse_from_string (serialize_to_string p) = some p := by
  cases p with
  | unset => rfl
  | config m =>
    have h := decConfig_encConfig m []
    rw [List.append_nil] at h
    simp [serialize_to_string, parse_from_string, h]
  | no_config m =>
    have h := decNoConfig_encNoConfig m []
    rw [List.append_nil] at h
    simp [serialize_to_string, parse_from_string, h]
  | ping m =>
    have h := decPing_encPing m []
    rw [List.append_nil] at h
    simp [serialize_to_string, parse_from_string, h]
  | no_ping m =>
    have h := decNoPing_encNoPing m []
    rw [List.append_nil] at h
    simp [serialize_to_string, parse_from_string, h]
  | request_config m =>
    have h := decRequestConfig_encRequestConfig m []
    rw [List.append_nil] at h
    simp [serialize_to_string, parse_from_string, h]
  | request_ping m =>
    have h := decRequestPing_encRequestPing m []
    rw [List.append_nil] at h
    simp [serialize_to_string, parse_from_string, h]
  | error m =>
    have h := decError_encError m []
    rw [List.append_nil] at h
    simp [serialize_to_string, parse_from_string, h]

/-! ## SimulatedMeshInterface from interfaces.py

The process-wide class attribute _nodes_data is modelled as an explicit
world record threaded through every operation, and the class attribute
_global_packet_id as the worlds nextPacketId counter. -/

/-- One entry of the simulated node table: user id, neighbor ids, and the
inbox queue of raw payloads, front of the list first. -/
structure SimNode where
  user_id : String
  neighbors : List Nat
  inbox : List (List Nat)
deriving DecidableEq

/-- The process-wide simulated-network state: the node table in insertion
order and the global packet id counter, which starts at 1000. -/
structure SimWorld where
  nodes : List (Nat × SimNode)
  nextPacketId : Nat := 1000
deriving DecidableEq

/-- Dictionary lookup self._nodes_data.get(nid). -/
def lookupNode (w : SimWorld) (nid : Nat) : Option SimNode :=
  (w.nodes.find? (fun p => p.1 = nid)).map Prod.snd

/-- Replace the entry of one node id, leaving the table keys unchanged. -/
def updateNode (w : SimWorld) (nid : Nat) (f : SimNode → SimNode) : SimWorld :=
  { w with nodes := w.nodes.map (fun p => if p.1 = nid then (p.1, f p.2) else p) }

/-- Append a payload to the inbox queue of one node. -/
def pushInbox (w : SimWorld) (nid : Nat) (data : List Nat) : SimWorld :=
  updateNode w nid (fun n => { n with inbox := n.inbox ++ [data] })

/-- Constructor effect of SimulatedMeshInterface: create the table entry on
first reference to a numeric id, otherwise overwrite only the user id. -/
def registerSimNode (w : SimWorld) (nid : Nat) (uid : String) : SimWorld :=
  match lookupNode w nid with
  | none => { w with nodes := w.nodes ++ [(nid, ⟨uid, [], []⟩)] }
  | some _ => updateNode w nid (fun n => { n with user_id := uid })

def ACK_SUCCESS_PERCENT : Nat := 80

/-- An invocation of one of the two acknowledgment callbacks. -/
inductive AckEvent where
  | success (packet_id : Nat)
  | fail (packet_id : Nat)
deriving DecidableEq

/-- Result of one simulated send: the returned packet id, the new world,
and the acknowledgment callback invocations it performed. -/
structure SendResult where
  packet_id : Option Nat
  world : SimWorld
  events : List AckEvent
deriving DecidableEq

/-- Acknowledgment simulation for a reachable send: a draw below the
success percentage reports success, otherwise failure, through whichever
callback is registered. The rand argument models secrets.randbelow(100). -/
def simulateAck (pktId : Nat) (rand : Nat) (cbS cbF : Bool) : List AckEvent :=
  if rand % 100 < ACK_SUCCESS_PERCENT then
    if cbS then [.success pktId] else []
  else
    if cbF then [.fail pktId] else []

/-- Embedding of SimulatedMeshInterface.send_message_with_id from
interfaces.py: allocate the next global packet id, then enqueue the
payload into every neighbor inbox for a broadcast, into the destination
inbox when the destination id exists in the node table, and otherwise
resolve a requested acknowledgment as immediate failure without enqueuing
anywhere. cbS and cbF say whether the success and failure callbacks are
registered. -/
def send_message_with_id (w : SimWorld) (sender : Nat) (data : List Nat)
    (dest : Option Nat) (want_ack : Bool) (cbS cbF : Bool) (rand : Nat) : SendResult :=
  match lookupNode w sender with
  | none => ⟨none, w, []⟩
  | some node_data =>
    let pktId := w.nextPacketId
    let w1 : SimWorld := { w with nextPacketId := w.nextPacketId + 1 }
    match dest with
    | none =>
      let w2 := node_data.neighbors.foldl
        (fun acc nbr =>
          match lookupNode acc nbr with
          | some _ => pushInbox acc nbr data
          | none => acc) w1
      ⟨some pktId, w2, if want_ack then simulateAck pktId rand cbS cbF else []⟩
    | some d =>
      match lookupNode w1 d with
      | some _ =>
        let w2 := pushInbox w1 d data
        ⟨some pktId, w2, if want_ack then simulateAck pktId rand cbS cbF else []⟩
      | none =>
        ⟨some pktId, w1, if want_ack && cbF then [.fail pktId] else []⟩

/-- Embedding of SimulatedMeshInterface.send_message, which delegates to
send_message_with_id. -/
def sim_send_message (w : SimWorld) (sender : Nat) (data : List Nat)
    (dest : Option Nat) (want_ack : Bool) (cbS cbF : Bool) (rand : Nat) : SendResult :=
  send_message_with_id w sender data dest want_ack cbS cbF rand

/-- Embedding of SimulatedMeshInterface.get_neighbors. -/
def get_neighbors (w : SimWorld) (nid : Nat) : List Nat :=
  match lookupNode w nid with
  | none => []
  | some nd => nd.neighbors

/-- Embedding of SimulatedMeshInterface.receive_message: pop the front of
the own inbox queue, or return nothing when it is empty. -/
def receive_message (w : SimWorld) (nid : Nat) : Option (List Nat) × SimWorld :=
  match lookupNode w nid with
  | none => (none, w)
  | some nd =>
    match nd.inbox with
    | [] => (none, w)
    | d :: _ => (some d, updateNode w nid (fun n => { n with inbox := n.inbox.tail }))

theorem lookupNode_counter (w : SimWorld) (k nid : Nat) :
    lookupNode { w with nextPacketId := k } nid = lookupNode w nid := rfl

/-- C2 counterexample: with nodes 1 and 2 both registered but 2 not a
neighbor of 1, a send from 1 to 2 with want_ack and a registered failure
callback does enqueue an inbox entry at node 2, and resolves the
acknowledgment by the random draw (here: success), contrary to the claim
that a non-neighbor destination is never enqueued and always resolves the
acknowledgment as failure. -/
theorem sim_nonneighbor_send_enqueues :
    ((2 : Nat) ∉ get_neighbors ⟨[(1, ⟨"node-1", [], []⟩), (2, ⟨"node-2", [], []⟩)], 1000⟩ 1) ∧
    (send_message_with_id ⟨[(1, ⟨"node-1", [], []⟩), (2, ⟨"node-2", [], []⟩)], 1000⟩
        1 [7] (some 2) true true true 0).world.nodes
      = [(1, ⟨"node-1", [], []⟩), (2, ⟨"node-2", [], [[7]]⟩)] ∧
    (send_message_with_id ⟨[(1, ⟨"node-1", [], []⟩), (2, ⟨"node-2", [], []⟩)], 1000⟩
        1 [7] (some 2) true true true 0).events = [.success 1000] := by
  refine ⟨by decide, ?_, ?_⟩ <;> rfl

/-- C2 amended: the no-enqueue-and-immediate-failure branch triggers when
the destination id is absent from the process-wide node table. In that
case no inbox anywhere changes, the failure callback (when registered)
fires immediately, and it receives exactly the packet id that the send
returns. -/
theorem sim_unknown_destination_ack_fail
    (w : SimWorld) (sender d : Nat) (data : List Nat) (cbS : Bool) (rand : Nat)
    (hs : (lookupNode w sender).isSome) (hd : lookupNode w d = none) :
    (send_message_with_id w sender data (some d) true cbS true rand).packet_id
        = some w.nextPacketId ∧
    (send_message_with_id w sender data (some d) true cbS true rand).events
        = [.fail w.nextPacketId] ∧
    (send_message_with_id w sender data (some d) true cbS true rand).world.nodes
        = w.nodes := by
  obtain ⟨nd, hnd⟩ := Option.isSome_iff_exists.mp hs
  simp [send_message_with_id, hnd, lookupNode_counter, hd]

theorem sim_unknown_destination_ack_fail_witness :
    ((lookupNode ⟨[(1, ⟨"node-1", [], []⟩)], 1000⟩ 1).isSome
      ∧ lookupNode ⟨[(1, ⟨"node-1", [], []⟩)], 1000⟩ 9 = none) ∧
    ((send_message_with_id ⟨[(1, ⟨"node-1", [], []⟩)], 1000⟩ 1 [3] (some 9) true false true 5).packet_id
        = some 1000 ∧
     (send_message_with_id ⟨[(1, ⟨"node-1", [], []⟩)], 1000⟩ 1 [3] (some 9) true false true 5).events
        = [.fail 1000] ∧
     (send_message_with_id ⟨[(1, ⟨"node-1", [], []⟩)], 1000⟩ 1 [3] (some 9) true false true 5).world.nodes
        = [(1, ⟨"node-1", [], []⟩)]) :=
  ⟨⟨by decide, by decide⟩,
    sim_unknown_destination_ack_fail ⟨[(1, ⟨"node-1", [], []⟩)], 1000⟩ 1 9 [3] false 5
      (by decide) (by decide)⟩

/-! ## Packet id allocation across a sequence of simulated sends -/

/-- One send_message call: the calling node, payload, destination, the
acknowledgment request, the registered-callback flags, and the random
draw consumed if an acknowledgment is simulated. -/
structure SimSendReq where
  sender : Nat
  data : List Nat
  dest : Option Nat
  want_ack : Bool
  cbS : Bool
  cbF : Bool
  rand : Nat
deriving DecidableEq

/-- Run a sequence of send_message calls by any set of simulated nodes
against the shared world, collecting the returned packet ids. -/
def runSends (w : SimWorld) : List SimSendReq → List (Option Nat) × SimWorld
  | [] => ([], w)
  | r :: rs =>
    let res := send_message_with_id w r.sender r.data r.dest r.want_ack r.cbS r.cbF r.rand
    let rec2 := runSends res.world rs
    (res.packet_id :: rec2.1, rec2.2)

theorem lookupNode_updateNode_isSome (w : SimWorld) (nid x : Nat) (f : SimNode → SimNode) :
    (lookupNode (updateNode w nid f) x).isSome = (lookupNode w x).isSome := by
  simp only [lookupNode, updateNode]
  induction w.nodes with
  | nil => rfl
  | cons p ps ih =>
    have hfst : ((if p.1 = nid then (p.1, f p.2) else p).1) = p.1 := by
      by_cases h : p.1 = nid <;> simp [h]
    simp only [List.map_cons, List.find?_cons, hfst]
    by_cases hx : p.1 = x
    · simp [hx]
    · simpa [hx] using ih

theorem lookupNode_pushInbox_isSome (w : SimWorld) (nid x : Nat) (data : List Nat) :
    (lookupNode (pushInbox w nid data) x).isSome = (lookupNode w x).isSome :=
  lookupNode_updateNode_isSome w nid x _

theorem updateNode_nextPacketId (w : SimWorld) (nid : Nat) (f : SimNode → SimNode) :
    (updateNode w nid f).nextPacketId = w.nextPacketId := rfl

theorem broadcast_foldl_isSome (data : List Nat) (nbrs : List Nat) (w : SimWorld) (x : Nat) :
    (lookupNode (nbrs.foldl
        (fun acc nbr =>
          match lookupNode acc nbr with
          | some _ => pushInbox acc nbr data
          | none => acc) w) x).isSome = (lookupNode w x).isSome := by
  induction nbrs generalizing w with
  | nil => rfl
  | cons n ns ih =>
    simp only [List.foldl_cons]
    cases h : lookupNode w n with
    | none =>
      simp only [h]
      exact ih w
    | some nd =>
      simp only [h]
      rw [ih (pushInbox w n data), lookupNode_pushInbox_isSome]

theorem broadcast_foldl_nextPacketId (data : List Nat) (nbrs : List Nat) (w : SimWorld) :
    (nbrs.foldl
        (fun acc nbr =>
          match lookupNode acc nbr with
          | some _ => pushInbox acc nbr data
          | none => acc) w).nextPacketId = w.nextPacketId := by
  induction nbrs generalizing w with
  | nil => rfl
  | cons n ns ih =>
    simp only [List.foldl_cons]
    cases h : lookupNode w n with
    | none =>
      simp only [h]
      exact ih w
    | some nd =>
      simp only [h]
      rw [ih (pushInbox w n data)]
      rfl

theorem send_registered_packet_id (w : SimWorld) (r : SimSendReq)
    (hs : (lookupNode w r.sender).isSome) :
    (send_message_with_id w r.sender r.data r.dest r.want_ack r.cbS r.cbF r.rand).packet_id
        = some w.nextPacketId ∧
    (send_message_with_id w r.sender r.data r.dest r.want_ack r.cbS r.cbF r.rand).world.nextPacketId
        = w.nextPacketId + 1 ∧
    ∀ x, (lookupNode
        (send_message_with_id w r.sender r.data r.dest r.want_ack r.cbS r.cbF r.rand).world x).isSome
      = (lookupNode w x).isSome := by
  obtain ⟨nd, hnd⟩ := Option.isSome_iff_exists.mp hs
  cases hdest : r.dest with
  | none =>
    refine ⟨?_, ?_, ?_⟩
    · simp [send_message_with_id, hnd, hdest]
    · simp only [send_message_with_id, hnd, hdest]
      rw [broadcast_foldl_nextPacketId]
    · intro x
      simp only [send_message_with_id, hnd, hdest]
      rw [broadcast_foldl_isSome]
      rfl
  | some d =>
    cases hd : lookupNode w d with
    | none =>
      refine ⟨?_, ?_, ?_⟩
      · simp [send_message_with_id, hnd, hdest, lookupNode_counter, hd]
      · simp [send_message_with_id, hnd, hdest, lookupNode_counter, hd]
      · intro x
        simp only [send_message_with_id, hnd, hdest, lookupNode_counter, hd]
    | some dd =>
      refine ⟨?_, ?_, ?_⟩
      · simp [send_message_with_id, hnd, hdest, lookupNode_counter, hd]
      · simp [send_message_with_id, hnd, hdest, lookupNode_counter, hd, pushInbox,
          updateNode_nextPacketId]
      · intro x
        simp only [send_message_with_id, hnd, hdest, lookupNode_counter, hd]
        rw [lookupNode_pushInbox_isSome]
        rfl

/-- C4 amended: across any sequence of send_message calls whose senders
are registered in the node table (as every constructed
SimulatedMeshInterface is), the interfaces.py implementation returns the
consecutive values of the single process-wide counter: the ids are
some nextPacketId, some (nextPacketId + 1), ..., hence pairwise distinct
and strictly increasing in send order. -/
theorem sim_packet_ids_monotonic (rs : List SimSendReq) (w : SimWorld)
    (hreg : ∀ r ∈ rs, (lookupNode w r.sender).isSome) :
    (runSends w rs).1 = (List.range rs.length).map (fun i => some (w.nextPacketId + i)) ∧
    (runSends w rs).1.Pairwise (fun a b => ∃ m n, a = some m ∧ b = some n ∧ m < n) := by
  have main : ∀ rs (w : SimWorld), (∀ r ∈ rs, (lookupNode w r.sender).isSome) →
      (runSends w rs).1 = (List.range rs.length).map (fun i => some (w.nextPacketId + i)) := by
    intro rs
    induction rs with
    | nil => intro w _; rfl
    | cons r rs ih =>
      intro w hreg
      have hr := send_registered_packet_id w r (hreg r (List.mem_cons_self r rs))
      have htail : ∀ q ∈ rs,
          (lookupNode (send_message_with_id w r.sender r.data r.dest r.want_ack
            r.cbS r.cbF r.rand).world q.sender).isSome := by
        intro q hq
        rw [hr.2.2]
        exact hreg q (List.mem_cons_of_mem r hq)
      have := ih _ htail
      have hmap : (List.range rs.length).map ((fun i => some (w.nextPacketId + i)) ∘ Nat.succ)
          = (List.range rs.length).map (fun i => some (w.nextPacketId + 1 + i)) := by
        apply List.map_congr_left
        intro i hi
        simp only [Function.comp_apply, Nat.succ_eq_add_one, Option.some.injEq]
        omega
      simp only [runSends, hr.1, this, hr.2.1]
      rw [List.length_cons, List.range_succ_eq_map, List.map_cons, List.map_map, hmap]
      simp
  have hform := main rs w hreg
  refine ⟨hform, ?_⟩
  rw [hform]
  rw [List.pairwise_map]
  have := List.pairwise_lt_range rs.length
  refine this.imp ?_
  intro a b hab
  exact ⟨w.nextPacketId + a, w.nextPacketId + b, rfl, rfl, by omega⟩

theorem sim_packet_ids_monotonic_witness :
    ((∀ r ∈ [SimSendReq.mk 1 [9] none false false false 0,
              SimSendReq.mk 2 [8] (some 1) true true true 3,
              SimSendReq.mk 1 [7] (some 5) true false true 0],
        (lookupNode ⟨[(1, ⟨"node-1", [2], []⟩), (2, ⟨"node-2", [1], []⟩)], 1000⟩ r.sender).isSome)) ∧
    (runSends ⟨[(1, ⟨"node-1", [2], []⟩), (2, ⟨"node-2", [1], []⟩)], 1000⟩
        [SimSendReq.mk 1 [9] none false false false 0,
         SimSendReq.mk 2 [8] (some 1) true true true 3,
         SimSendReq.mk 1 [7] (some 5) true false true 0]).1
      = (List.range 3).map (fun i => some (1000 + i)) :=
  ⟨by decide,
    (sim_packet_ids_monotonic
      [SimSendReq.mk 1 [9] none false false false 0,
       SimSendReq.mk 2 [8] (some 1) true true true 3,
       SimSendReq.mk 1 [7] (some 5) true false true 0]
      ⟨[(1, ⟨"node-1", [2], []⟩), (2, ⟨"node-2", [1], []⟩)], 1000⟩ (by decide)).1⟩

/-! ## SimulatedMeshInterface from simulated_mesh.py, the historical
variant cited by the packet id claim

Its packet id is hash((self.numeric_id, data)) masked to 32 bits, not a
counter. The builtin hash is process-seeded, so it is passed in as an
explicit function h from sender id and payload to a natural number; the
statements below hold for every choice of h. -/

/-- One entry of the simulated_mesh.py node table: user id, inbox of
pairs of payload and sender id, and neighbor ids. -/
structure SMNode where
  user_id : String
  inbox : List (List Nat × Nat)
  neighbors : List Nat
deriving DecidableEq

/-- The simulated_mesh.py process-wide node table. -/
structure SMWorld where
  nodes : List (Nat × SMNode)
deriving DecidableEq

def sm_lookup (w : SMWorld) (nid : Nat) : Option SMNode :=
  (w.nodes.find? (fun p => p.1 = nid)).map Prod.snd

def sm_update (w : SMWorld) (nid : Nat) (f : SMNode → SMNode) : SMWorld :=
  ⟨w.nodes.map (fun p => if p.1 = nid then (p.1, f p.2) else p)⟩

/-- Append an inbox entry to one node, failing like the Python direct
table indexing when the node id is absent. -/
def sm_push (w : SMWorld) (nid : Nat) (entry : List Nat × Nat) : Option SMWorld :=
  match sm_lookup w nid with
  | some _ => some (sm_update w nid (fun n => { n with inbox := n.inbox ++ [entry] }))
  | none => none

/-- Embedding of send_message from simulated_mesh.py: the packet id is
the masked hash of the sender id and payload; a broadcast enqueues to all
neighbors, a unicast to a destination in the neighbor list enqueues
there, and any other destination resolves a requested acknowledgment as
immediate failure. The outer Option is a raised KeyError. -/
def sm_send_message (h : Nat → List Nat → Nat) (w : SMWorld) (sender : Nat)
    (data : List Nat) (dest : Option Nat) (want_ack cbS cbF : Bool) (rand : Nat) :
    Option (Option Nat × SMWorld × List AckEvent) :=
  match sm_lookup w sender with
  | none => none
  | some node_data =>
    let packet_id := h sender data % 2 ^ 32
    match dest with
    | none =>
      match node_data.neighbors.foldl
          (fun acc nbr => acc.bind (fun ww => sm_push ww nbr (data, sender))) (some w) with
      | none => none
      | some w2 =>
        some (some packet_id, w2, if want_ack then simulateAck packet_id rand cbS cbF else [])
    | some d =>
      if d ∈ node_data.neighbors then
        match sm_push w d (data, sender) with
        | none => none
        | some w2 =>
          some (some packet_id, w2, if want_ack then simulateAck packet_id rand cbS cbF else [])
      else
        some (some packet_id, w, if want_ack && cbF then [.fail packet_id] else [])

/-- Stand-in for the process-seeded Python hash in the concrete
counterexample evaluation; the id collision below is independent of this
choice because the id of a send depends only on the sender and payload. -/
def sm_hash_ex (sid : Nat) (data : List Nat) : Nat :=
  sid * 257 + data.foldl (fun a b => a * 31 + b) 7

def sm_world_ex : SMWorld :=
  ⟨[(1, ⟨"node-1", [], [2]⟩), (2, ⟨"node-2", [], [1]⟩)]⟩

/-- The world after the first send of payload [120] from node 1 to its
neighbor 2 in the simulated_mesh.py variant. -/
def sm_world_ex2 : SMWorld :=
  ⟨[(1, ⟨"node-1", [], [2]⟩), (2, ⟨"node-2", [([120], 1)], [1]⟩)]⟩

/-- C4 counterexample: in the simulated_mesh.py variant, two successive
sends of the same payload from the same node return the same packet id,
so the returned ids of a send sequence are neither pairwise distinct nor
strictly increasing, and no process-wide counter is consulted. -/
theorem sm_same_payload_same_packet_id :
    sm_send_message sm_hash_ex sm_world_ex 1 [120] (some 2) false false false 0
      = some (some (sm_hash_ex 1 [120] % 2 ^ 32), sm_world_ex2, []) ∧
    (sm_send_message sm_hash_ex sm_world_ex2 1 [120] (some 2) false false false 0).map
        (fun r => r.1)
      = some (some (sm_hash_ex 1 [120] % 2 ^ 32)) := by
  constructor <;> rfl

/-! ## Transceiver from transceiver.py -/

/-- Transceiver state: the flags set by start and stop and the outbound
send queue of destination and serialized payload pairs, front first. The
source keeps no connection flag that any operation consults. -/
structure Transceiver where
  started : Bool := false
  stopped : Bool := false
  send_queue : List (Option Nat × List Nat) := []
deriving DecidableEq

/-- Embedding of Transceiver.start: connect the interface and launch the
loops; on the state record this sets the started flag. -/
def transceiver_start (t : Transceiver) : Transceiver :=
  { t with started := true }

/-- Embedding of Transceiver.stop: signal the loops and close the
interface; on the state record this sets the stopped flag. -/
def transceiver_stop (t : Transceiver) : Transceiver :=
  { t with stopped := true }

/-- Embedding of Transceiver.enqueue_packet: serialize the packet and put
the pair of destination and bytes on the send queue. The source performs
no connection-state check and has no failure path. -/
def enqueue_packet (t : Transceiver) (packet : MeshPacket) (destination : Option Nat) :
    Transceiver :=
  { t with send_queue := t.send_queue ++ [(destination, serialize_to_string packet)] }

/-- C5 amended: enqueue_packet never fails and never checks the
connection state; in every Transceiver state, including one on which
start was never called and one on which stop was called, it appends the
serialized packet to the send queue. -/
theorem enqueue_packet_always_queues (t : Transceiver) (packet : MeshPacket)
    (destination : Option Nat) :
    (enqueue_packet t packet destination).send_queue
        = t.send_queue ++ [(destination, serialize_to_string packet)] ∧
    (enqueue_packet (transceiver_stop t) packet destination).send_queue
        = (transceiver_stop t).send_queue ++ [(destination, serialize_to_string packet)] := by
  constructor <;> rfl

/-- C5 counterexample: on a freshly constructed Transceiver on which
start was never called, enqueue_packet accepts the packet onto the send
queue instead of failing with a NotConnected error; no such error exists
in the source. -/
theorem enqueue_before_start_accepts :
    ({} : Transceiver).started = false ∧
    (enqueue_packet {} (.no_ping ⟨⟨0, 0⟩⟩) none).send_queue
      = [(none, serialize_to_string (.no_ping ⟨⟨0, 0⟩⟩))] := by
  constructor <;> rfl

/-- One transport call made by the send loop body. -/
structure TransportCall where
  data : List Nat
  destination : Option Nat
  want_ack : Bool
deriving DecidableEq

/-- Embedding of one iteration of Transceiver._send_loop: pop the front
queue item if any and call send_message on the mesh interface with
want_ack exactly when the destination is a specific node id. -/
def send_loop_step (t : Transceiver) : Option (TransportCall × Transceiver) :=
  match t.send_queue with
  | [] => none
  | (destination, data) :: rest =>
    some (⟨data, destination, destination.isSome⟩, { t with send_queue := rest })

/-- C8: every transport call made by the send loop requests an
acknowledgment if and only if its destination is a specific node id;
broadcast sends never request one. -/
theorem send_loop_want_ack_iff_unicast (t : Transceiver) (c : TransportCall)
    (t2 : Transceiver) (h : send_loop_step t = some (c, t2)) :
    c.want_ack = true ↔ c.destination ≠ none := by
  cases hq : t.send_queue with
  | nil => rw [send_loop_step, hq] at h; exact absurd h (by simp)
  | cons item rest =>
    obtain ⟨d, data⟩ := item
    rw [send_loop_step, hq] at h
    have hc : c = ⟨data, d, d.isSome⟩ := by
      have := congrArg (fun o => Option.map Prod.fst o) h
      simpa using this.symm
    subst hc
    cases d <;> simp

theorem send_loop_want_ack_iff_unicast_witness :
    send_loop_step ⟨true, false, [(some 2, [9])]⟩
        = some (⟨[9], some 2, true⟩, ⟨true, false, []⟩) ∧
    ((⟨[9], some 2, true⟩ : TransportCall).want_ack = true
      ↔ (⟨[9], some 2, true⟩ : TransportCall).destination ≠ none) :=
  ⟨by rfl,
    send_loop_want_ack_iff_unicast ⟨true, false, [(some 2, [9])]⟩ ⟨[9], some 2, true⟩
      ⟨true, false, []⟩ (by rfl)⟩

/-- Embedding of Transceiver._handle_incoming_packet up to the dispatch
hook: parse the raw bytes and hand the packet to on_packet_received; a
parse failure is logged and dropped. This form returns the parsed packet
handed upward, if any. -/
def handle_incoming_packet (data : List Nat) : Option MeshPacket :=
  parse_from_string data

/-! ## Handler dispatch from tower_comms.py

TowerComms._invoke_handlers iterates the handler list of one message kind
with a Python for loop over the live list, collects the indices of
one_time handlers, and pops them in reverse order after the loop. A
Python callback is opaque; what matters to the claims is its identity and
which handlers it appends to the same list while it runs, so a handler is
modelled by exactly those. The live-list for loop is embedded as a
recursion on the not-yet-visited suffix: entries appended during the loop
land behind that suffix and are therefore visited by the same pass. The
fuel argument is exact: each visited entry consumes one unit and
contributes one unit per handler it appends. -/

/-- One registered handler: the identity of the callback, its one_time
flag, and the handlers its callback appends to the same list when it is
invoked, given as id and one_time pairs; an inert callback appends
nothing. -/
structure HandlerEntry where
  hid : Nat
  one_time : Bool
  appends : List (Nat × Bool) := []
deriving DecidableEq

/-- A handler registered mid-pass by another callback, itself inert. -/
def mk_inert (p : Nat × Bool) : HandlerEntry :=
  ⟨p.1, p.2, []⟩

/-- Exact loop fuel: the list length plus every appended handler. -/
def fuel_for (hs : List HandlerEntry) : Nat :=
  hs.length + (hs.map (fun e => e.appends.length)).sum

/-- The enumerate loop of _invoke_handlers: visit the next unvisited
entry, record its invocation and its index when one_time, and append the
handlers its callback registers behind the remaining suffix. Returns the
invocation order, the final list value, and the collected indices. -/
def invoke_core : Nat → List HandlerEntry → Nat → List HandlerEntry → List Nat → List Nat →
    List Nat × List HandlerEntry × List Nat
  | 0, _, _, acc, inv, rm => (inv, acc, rm)
  | _ + 1, [], _, acc, inv, rm => (inv, acc, rm)
  | fuel + 1, e :: rest, i, acc, inv, rm =>
    invoke_core fuel (rest ++ e.appends.map mk_inert) (i + 1) (acc ++ [e]) (inv ++ [e.hid])
      (if e.one_time then rm ++ [i] else rm)

/-- Python list.pop(i). -/
def pop_at (l : List HandlerEntry) (i : Nat) : List HandlerEntry :=
  l.take i ++ l.drop (i + 1)

/-- Embedding of TowerComms._invoke_handlers: run the loop over the live
list, then pop the collected one_time indices in reverse order. Returns
the invocation order and the list left for the next pass. -/
def invoke_handlers (hs : List HandlerEntry) : List Nat × List HandlerEntry :=
  let r := invoke_core (fuel_for hs) hs 0 [] [] []
  (r.1, r.2.2.reverse.foldl pop_at r.2.1)

/-- C7: on a kind with a one_time handler a registered before a plain
handler b, the first dispatch pass invokes both in order and removes a
within the pass, and the second pass invokes only b: across the two
passes a is invoked exactly once and b exactly twice. -/
theorem one_shot_handler_semantics (a b : Nat) (hab : a ≠ b) :
    (invoke_handlers [⟨a, true, []⟩, ⟨b, false, []⟩]).1 = [a, b] ∧
    (invoke_handlers [⟨a, true, []⟩, ⟨b, false, []⟩]).2 = [⟨b, false, []⟩] ∧
    (invoke_handlers (invoke_handlers [⟨a, true, []⟩, ⟨b, false, []⟩]).2).1 = [b] ∧
    ((invoke_handlers [⟨a, true, []⟩, ⟨b, false, []⟩]).1
      ++ (invoke_handlers (invoke_handlers [⟨a, true, []⟩, ⟨b, false, []⟩]).2).1).count a = 1 ∧
    ((invoke_handlers [⟨a, true, []⟩, ⟨b, false, []⟩]).1
      ++ (invoke_handlers (invoke_handlers [⟨a, true, []⟩, ⟨b, false, []⟩]).2).1).count b = 2 := by
  refine ⟨rfl, rfl, rfl, ?_, ?_⟩
  · show ([a, b] ++ [b]).count a = 1
    simp [List.count_cons, hab, Ne.symm hab]
  · show ([a, b] ++ [b]).count b = 2
    simp [List.count_cons, hab, Ne.symm hab]

theorem one_shot_handler_semantics_witness :
    ((0 : Nat) ≠ 1) ∧
    ((invoke_handlers [⟨0, true, []⟩, ⟨1, false, []⟩]).1
      ++ (invoke_handlers (invoke_handlers [⟨0, true, []⟩, ⟨1, false, []⟩]).2).1).count 0 = 1 ∧
    ((invoke_handlers [⟨0, true, []⟩, ⟨1, false, []⟩]).1
      ++ (invoke_handlers (invoke_handlers [⟨0, true, []⟩, ⟨1, false, []⟩]).2).1).count 1 = 2 :=
  ⟨by decide,
    (one_shot_handler_semantics 0 1 (by decide)).2.2.2.1,
    (one_shot_handler_semantics 0 1 (by decide)).2.2.2.2⟩

/-- The ids a pass invokes: the initially registered handlers in order,
then every handler appended during the pass, in append order. -/
def pass_spec (hs : List HandlerEntry) : List Nat :=
  hs.map (fun e => e.hid) ++ (hs.map (fun e => e.appends.map Prod.fst)).flatten

theorem sum_map_zero_nat (l : List (Nat × Bool)) :
    (l.map (fun _ => (0 : Nat))).sum = 0 := by
  induction l with
  | nil => rfl
  | cons x xs ih => simp [ih]

theorem inert_flat (l : List (Nat × Bool)) :
    (l.map ((fun e2 : HandlerEntry => e2.appends.map Prod.fst) ∘ mk_inert)).flatten
      = ([] : List Nat) := by
  induction l with
  | nil => rfl
  | cons x xs ih => simp [mk_inert, ih]

theorem inert_hid (l : List (Nat × Bool)) :
    l.map ((fun e2 : HandlerEntry => e2.hid) ∘ mk_inert) = l.map Prod.fst := by
  induction l with
  | nil => rfl
  | cons x xs ih => simp [mk_inert, ih]

theorem invoke_core_inv :
    ∀ fuel todo i acc inv rm, fuel_for todo ≤ fuel →
      (invoke_core fuel todo i acc inv rm).1 = inv ++ pass_spec todo := by
  intro fuel
  induction fuel with
  | zero =>
    intro todo i acc inv rm h
    cases todo with
    | nil => simp [invoke_core, pass_spec]
    | cons e rest => simp [fuel_for] at h
  | succ fuel ih =>
    intro todo i acc inv rm h
    cases todo with
    | nil => simp [invoke_core, pass_spec]
    | cons e rest =>
      have hsum : ((e.appends.map mk_inert).map (fun e2 => e2.appends.length)).sum = 0 := by
        rw [List.map_map]
        exact sum_map_zero_nat e.appends
      have hfuel : fuel_for (rest ++ e.appends.map mk_inert) ≤ fuel := by
        simp only [fuel_for, List.length_append, List.map_append, List.sum_append,
          List.length_map, hsum] at h ⊢
        simp only [fuel_for, List.length_cons, List.map_cons, List.sum_cons] at h
        omega
      rw [invoke_core, ih _ _ _ _ _ hfuel]
      simp only [pass_spec, List.map_append, List.flatten_append, List.map_map,
        inert_hid, inert_flat, List.map_cons, List.flatten_cons, List.append_nil,
        List.nil_append, List.append_assoc, List.cons_append, List.singleton_append]

/-- C9 amended: one dispatch pass iterates the live handler list, not a
snapshot: it invokes the initially registered handlers in order and then
every handler appended to the list during the pass, in append order,
within that same pass. -/
theorem dispatch_pass_iterates_live_list (hs : List HandlerEntry) :
    (invoke_handlers hs).1
      = hs.map (fun e => e.hid) ++ (hs.map (fun e => e.appends.map Prod.fst)).flatten := by
  have h := invoke_core_inv (fuel_for hs) hs 0 [] [] [] le_rfl
  simpa [invoke_handlers, pass_spec] using h

/-- C9 counterexample: a single handler with id 1 whose callback appends
a handler with id 2 to the same list; the pass invokes id 2 right after
id 1, in the same pass, contrary to the claim that a handler appended
mid-pass is only invoked in subsequent passes. -/
theorem mid_pass_registered_handler_invoked :
    (invoke_handlers [⟨1, false, [(2, false)]⟩]).1 = [1, 2] ∧
    2 ∈ (invoke_handlers [⟨1, false, [(2, false)]⟩]).1 := by
  constructor
  · rfl
  · decide

/-! ## Data models from data_models.py

NoConfigData, NoPingData and RequestPingData are imported and used by
tower_comms.py but absent from data_models.py in the sources; they are
modelled from the spec and from their construction sites, which populate
a timestamp and, for the request kinds, a node id. Float fields hold bit
patterns as in the packet structures. -/

structure ConfigData where
  gain : Nat
  sampling_rate : Nat
  center_frequency : Nat
  run_num : Nat
  enable_test_data : Bool
  ping_width_ms : Nat
  ping_min_snr : Nat
  ping_max_len_mult : Nat
  ping_min_len_mult : Nat
  target_frequencies : List Nat
  node_id : Option Nat := none
  timestamp : Option Nat := none
deriving DecidableEq

structure PingData where
  frequency : Nat
  amplitude : Nat
  latitude : Nat
  longitude : Nat
  altitude : Nat
  node_id : Option Nat := none
  timestamp : Option Nat := none
deriving DecidableEq

structure ErrorData where
  error_message : String
  node_id : Option Nat := none
  timestamp : Option Nat := none
deriving DecidableEq

structure RequestConfigData where
  node_id : Option Nat := none
  timestamp : Option Nat := none
deriving DecidableEq

/-- Modelled from the spec: data_models.py in the sources does not define
NoConfigData; tower_comms.py builds it with a timestamp only. -/
structure NoConfigData where
  timestamp : Option Nat := none
deriving DecidableEq

/-- Modelled from the spec: data_models.py in the sources does not define
NoPingData; tower_comms.py builds it with a timestamp only. -/
structure NoPingData where
  timestamp : Option Nat := none
deriving DecidableEq

/-- Modelled from the spec: data_models.py in the sources does not define
RequestPingData; tower_comms.py reads its node_id and builds it with a
timestamp. -/
structure RequestPingData where
  node_id : Option Nat := none
  timestamp : Option Nat := none
deriving DecidableEq

/-! ## TowerComms from tower_comms.py -/

/-- TowerComms state: the inherited Transceiver state, the numeric id of
the own simulated interface, and one handler list per message kind. -/
structure TowerComms extends Transceiver where
  self_id : Nat
  config_handlers : List HandlerEntry := []
  no_config_handlers : List HandlerEntry := []
  ping_handlers : List HandlerEntry := []
  no_ping_handlers : List HandlerEntry := []
  request_config_handlers : List HandlerEntry := []
  request_ping_handlers : List HandlerEntry := []
  error_handlers : List HandlerEntry := []
deriving DecidableEq

/-- TowerComms.get_neighbors delegates to the mesh interface. -/
def tower_get_neighbors (w : SimWorld) (t : TowerComms) : List Nat :=
  get_neighbors w t.self_id

/-- The error raised by TowerComms._validate_destination; the source
raises ValueError with an Invalid destination message. -/
inductive TowerSendError where
  | invalidDestination
deriving DecidableEq

/-- Embedding of TowerComms._validate_destination: a broadcast
destination is always valid; a specific destination must be a current
neighbor, otherwise the validation raises. -/
def validate_destination (w : SimWorld) (t : TowerComms) (destination : Option Nat) :
    Except TowerSendError Unit :=
  match destination with
  | none => .ok ()
  | some d =>
    if d ∈ tower_get_neighbors w t then .ok () else .error .invalidDestination

/-- Packet built by TowerComms.send_config: the source writes the
timestamp and the configuration fields and never writes the envelope
origin node id, which therefore keeps the protobuf default 0. -/
def build_config_packet (data : ConfigData) (now : Nat) : MeshPacket :=
  .config ⟨⟨0, now⟩, data.gain, data.sampling_rate, data.center_frequency, data.run_num,
    data.enable_test_data, data.ping_width_ms, data.ping_min_snr, data.ping_max_len_mult,
    data.ping_min_len_mult, data.target_frequencies⟩

def build_no_config_packet (now : Nat) : MeshPacket :=
  .no_config ⟨⟨0, now⟩⟩

def build_ping_packet (data : PingData) (now : Nat) : MeshPacket :=
  .ping ⟨⟨0, now⟩, data.frequency, data.amplitude, data.latitude, data.longitude,
    data.altitude⟩

def build_no_ping_packet (now : Nat) : MeshPacket :=
  .no_ping ⟨⟨0, now⟩⟩

/-- Packet built by TowerComms.send_request_config; the node_id written
into the packet comes from the data object, defaulting like protobuf
to 0 when absent. -/
def build_request_config_packet (data : RequestConfigData) (now : Nat) : MeshPacket :=
  .request_config ⟨⟨0, now⟩, data.node_id.getD 0⟩

def build_request_ping_packet (data : RequestPingData) (now : Nat) : MeshPacket :=
  .request_ping ⟨⟨0, now⟩, data.node_id.getD 0⟩

def build_error_packet (data : ErrorData) (now : Nat) : MeshPacket :=
  .error ⟨⟨0, now⟩, data.error_message⟩

/-- Embedding of TowerComms.send_config: validate the destination, build
the packet with the current timestamp, and enqueue it; the validation
raises before anything is queued. -/
def send_config (w : SimWorld) (t : TowerComms) (data : ConfigData)
    (destination : Option Nat) (now : Nat) : Except TowerSendError TowerComms :=
  match validate_destination w t destination with
  | .error e => .error e
  | .ok _ =>
    .ok { t with toTransceiver :=
      enqueue_packet t.toTransceiver (build_config_packet data now) destination }

def send_no_config (w : SimWorld) (t : TowerComms)
    (destination : Option Nat) (now : Nat) : Except TowerSendError TowerComms :=
  match validate_destination w t destination with
  | .error e => .error e
  | .ok _ =>
    .ok { t with toTransceiver :=
      enqueue_packet t.toTransceiver (build_no_config_packet now) destination }

def send_ping (w : SimWorld) (t : TowerComms) (data : PingData)
    (destination : Option Nat) (now : Nat) : Except TowerSendError TowerComms :=
  match validate_destination w t destination with
  | .error e => .error e
  | .ok _ =>
    .ok { t with toTransceiver :=
      enqueue_packet t.toTransceiver (build_ping_packet data now) destination }

def send_no_ping (w : SimWorld) (t : TowerComms)
    (destination : Option Nat) (now : Nat) : Except TowerSendError TowerComms :=
  match validate_destination w t destination with
  | .error e => .error e
  | .ok _ =>
    .ok { t with toTransceiver :=
      enqueue_packet t.toTransceiver (build_no_ping_packet now) destination }

def send_request_config (w : SimWorld) (t : TowerComms) (data : RequestConfigData)
    (destination : Option Nat) (now : Nat) : Except TowerSendError TowerComms :=
  match validate_destination w t destination with
  | .error e => .error e
  | .ok _ =>
    .ok { t with toTransceiver :=
      enqueue_packet t.toTransceiver (build_request_config_packet data now) destination }

def send_request_ping (w : SimWorld) (t : TowerComms) (data : RequestPingData)
    (destination : Option Nat) (now : Nat) : Except TowerSendError TowerComms :=
  match validate_destination w t destination with
  | .error e => .error e
  | .ok _ =>
    .ok { t with toTransceiver :=
      enqueue_packet t.toTransceiver (build_request_ping_packet data now) destination }

def send_error (w : SimWorld) (t : TowerComms) (data : ErrorData)
    (destination : Option Nat) (now : Nat) : Except TowerSendError TowerComms :=
  match validate_destination w t destination with
  | .error e => .error e
  | .ok _ =>
    .ok { t with toTransceiver :=
      enqueue_packet t.toTransceiver (build_error_packet data now) destination }

/-- C6: every send function called with a specific destination that is
not a current neighbor raises the invalid-destination error
synchronously, before anything is queued, leaving the original state
untouched; a destination of none, the broadcast, is always accepted. -/
theorem send_destination_validation (w : SimWorld) (t : TowerComms)
    (cdata : ConfigData) (pdata : PingData) (edata : ErrorData)
    (rcdata : RequestConfigData) (rpdata : RequestPingData) (now d : Nat)
    (hd : d ∉ tower_get_neighbors w t) :
    (send_config w t cdata (some d) now = .error .invalidDestination ∧
     send_no_config w t (some d) now = .error .invalidDestination ∧
     send_ping w t pdata (some d) now = .error .invalidDestination ∧
     send_no_ping w t (some d) now = .error .invalidDestination ∧
     send_request_config w t rcdata (some d) now = .error .invalidDestination ∧
     send_request_ping w t rpdata (some d) now = .error .invalidDestination ∧
     send_error w t edata (some d) now = .error .invalidDestination) ∧
    ((send_config w t cdata none now).isOk = true ∧
     (send_no_config w t none now).isOk = true ∧
     (send_ping w t pdata none now).isOk = true ∧
     (send_no_ping w t none now).isOk = true ∧
     (send_request_config w t rcdata none now).isOk = true ∧
     (send_request_ping w t rpdata none now).isOk = true ∧
     (send_error w t edata none now).isOk = true) := by
  constructor
  · refine ⟨?_, ?_, ?_, ?_, ?_, ?_, ?_⟩ <;>
      simp [send_config, send_no_config, send_ping, send_no_ping, send_request_config,
        send_request_ping, send_error, validate_destination, hd]
  · refine ⟨?_, ?_, ?_, ?_, ?_, ?_, ?_⟩ <;> rfl

theorem send_destination_validation_witness :
    ((3 : Nat) ∉ tower_get_neighbors ⟨[(1, ⟨"node-1", [2], []⟩)], 1000⟩ { self_id := 1 }) ∧
    (send_config ⟨[(1, ⟨"node-1", [2], []⟩)], 1000⟩ { self_id := 1 }
        ⟨0, 0, 0, 0, false, 0, 0, 0, 0, [], none, none⟩ (some 3) 5
      = .error .invalidDestination) ∧
    (send_config ⟨[(1, ⟨"node-1", [2], []⟩)], 1000⟩ { self_id := 1 }
        ⟨0, 0, 0, 0, false, 0, 0, 0, 0, [], none, none⟩ none 5).isOk = true :=
  ⟨by decide,
    (send_destination_validation ⟨[(1, ⟨"node-1", [2], []⟩)], 1000⟩ { self_id := 1 }
      ⟨0, 0, 0, 0, false, 0, 0, 0, 0, [], none, none⟩ ⟨0, 0, 0, 0, 0, none, none⟩
      ⟨"e", none, none⟩ ⟨none, none⟩ ⟨none, none⟩ 5 3 (by decide)).1.1,
    (send_destination_validation ⟨[(1, ⟨"node-1", [2], []⟩)], 1000⟩ { self_id := 1 }
      ⟨0, 0, 0, 0, false, 0, 0, 0, 0, [], none, none⟩ ⟨0, 0, 0, 0, 0, none, none⟩
      ⟨"e", none, none⟩ ⟨none, none⟩ ⟨none, none⟩ 5 3 (by decide)).2.1⟩

/-! ## Receive-side dispatch of TowerComms -/

/-- The typed data object handed to the handlers of one kind. -/
inductive ReceivedData where
  | config (d : ConfigData)
  | no_config (d : NoConfigData)
  | ping (d : PingData)
  | no_ping (d : NoPingData)
  | request_config (d : RequestConfigData)
  | request_ping (d : RequestPingData)
  | error (d : ErrorData)
deriving DecidableEq

/-- Embedding of TowerComms._extract_config: copy the variant fields into
a ConfigData; the source passes no node_id, so it keeps its None default.
The source reads packet.timestamp; the generated schema is absent from
the sources and per the spec the envelope holds the only timestamp, so
that read is modelled as the envelope timestamp. -/
def extract_config (p : ConfigPacket) : ConfigData :=
  { gain := p.gain, sampling_rate := p.sampling_rate,
    center_frequency := p.center_frequency, run_num := p.run_num,
    enable_test_data := p.enable_test_data, ping_width_ms := p.ping_width_ms,
    ping_min_snr := p.ping_min_snr, ping_max_len_mult := p.ping_max_len_mult,
    ping_min_len_mult := p.ping_min_len_mult,
    target_frequencies := p.target_frequencies,
    timestamp := some p.base_packet.timestamp }

def extract_no_config (p : NoConfigPacket) : NoConfigData :=
  { timestamp := some p.base_packet.timestamp }

def extract_ping (p : PingPacket) : PingData :=
  { frequency := p.frequency, amplitude := p.amplitude, latitude := p.latitude,
    longitude := p.longitude, altitude := p.altitude,
    timestamp := some p.base_packet.timestamp }

def extract_no_ping (p : NoPingPacket) : NoPingData :=
  { timestamp := some p.base_packet.timestamp }

/-- Embedding of TowerComms._extract_request_config: the source builds
RequestConfigData from the timestamp alone and does not extract the node
id carried by the packet. -/
def extract_request_config (p : RequestConfigPacket) : RequestConfigData :=
  { timestamp := some p.base_packet.timestamp }

def extract_request_ping (p : RequestPingPacket) : RequestPingData :=
  { timestamp := some p.base_packet.timestamp }

def extract_error (p : ErrorPacket) : ErrorData :=
  { error_message := p.error_message, timestamp := some p.base_packet.timestamp }

/-- Embedding of TowerComms.on_packet_received: determine the active
variant, extract its data object, and invoke the handlers registered for
that kind, returning the pairs of invoked handler id and the data object
it received; an unset variant invokes nothing. -/
def on_packet_received (t : TowerComms) (packet : MeshPacket) :
    TowerComms × List (Nat × ReceivedData) :=
  match packet with
  | .unset => (t, [])
  | .config m =>
    let d := extract_config m
    let r := invoke_handlers t.config_handlers
    ({ t with config_handlers := r.2 }, r.1.map (fun h2 => (h2, .config d)))
  | .no_config m =>
    let d := extract_no_config m
    let r := invoke_handlers t.no_config_handlers
    ({ t with no_config_handlers := r.2 }, r.1.map (fun h2 => (h2, .no_config d)))
  | .ping m =>
    let d := extract_ping m
    let r := invoke_handlers t.ping_handlers
    ({ t with ping_handlers := r.2 }, r.1.map (fun h2 => (h2, .ping d)))
  | .no_ping m =>
    let d := extract_no_ping m
    let r := invoke_handlers t.no_ping_handlers
    ({ t with no_ping_handlers := r.2 }, r.1.map (fun h2 => (h2, .no_ping d)))
  | .request_config m =>
    let d := extract_request_config m
    let r := invoke_handlers t.request_config_handlers
    ({ t with request_config_handlers := r.2 }, r.1.map (fun h2 => (h2, .request_config d)))
  | .request_ping m =>
    let d := extract_request_ping m
    let r := invoke_handlers t.request_ping_handlers
    ({ t with request_ping_handlers := r.2 }, r.1.map (fun h2 => (h2, .request_ping d)))
  | .error m =>
    let d := extract_error m
    let r := invoke_handlers t.error_handlers
    ({ t with error_handlers := r.2 }, r.1.map (fun h2 => (h2, .error d)))

/-- Incoming bytes at the TowerComms level: parse, then dispatch; a parse
failure is logged and dropped without invoking any handler. -/
def tower_handle_incoming (t : TowerComms) (data : List Nat) :
    TowerComms × List (Nat × ReceivedData) :=
  match parse_from_string data with
  | some p => on_packet_received t p
  | none => (t, [])

/-! ## TowerComms construction from tower_comms.py -/

/-- The failure mode of TowerComms.__init__ for one interface_type
value: the branch for the undeclared value serial builds the Meshtastic
interface; the branch for simulated calls SimulatedMeshInterface with no
arguments although its initializer requires numeric_id, a TypeError; any
other value, including the declared meshtastic, raises ValueError. -/
inductive TowerInitError where
  | valueError
  | typeError
deriving DecidableEq

/-- The interface selected by a successful TowerComms.__init__. -/
inductive BuiltInterface where
  | meshtastic (device : Option String)
  | simulated
deriving DecidableEq

/-- Embedding of the interface-selection branch of TowerComms.__init__. -/
def tower_comms_init (interface_type : String) (device : Option String) :
    Except TowerInitError BuiltInterface :=
  if interface_type = "serial" then .ok (.meshtastic device)
  else if interface_type = "simulated" then .error .typeError
  else .error .valueError

/-- The two values admitted by the declared Literal type of
NodeConfig.interface_type. -/
def node_config_interface_types : List String :=
  ["meshtastic", "simulated"]

/-- C10: both declared interface_type values fail to construct a
TowerComms: meshtastic falls through to the ValueError branch because
only the undeclared value serial selects the Meshtastic interface, and
simulated raises TypeError because SimulatedMeshInterface is called
without its required numeric_id argument. -/
theorem tower_init_declared_types_fail (device : Option String) :
    tower_comms_init ("meshtastic") device = .error .valueError ∧
    tower_comms_init ("simulated") device = .error .typeError ∧
    node_config_interface_types.all
      (fun ty => !(tower_comms_init ty device).isOk) = true := by
  refine ⟨?_, ?_, ?_⟩ <;> rfl

/-! ## The unicast config scenario of the spec, evaluated end to end

Nodes 1 and 2 are mutual neighbors; node 1 sends a config to node 2 with
run_num 999 and target frequencies 100, 200, 300 at timestamp 5; node 2
has one registered config handler with identity 7, drains its inbox and
dispatches. -/

def c3_world : SimWorld :=
  ⟨[(1, ⟨"node-1", [2], []⟩), (2, ⟨"node-2", [1], []⟩)], 1000⟩

def c3_tower1 : TowerComms :=
  { self_id := 1 }

def c3_tower2 : TowerComms :=
  { self_id := 2, config_handlers := [⟨7, false, []⟩] }

def c3_config : ConfigData :=
  { gain := 3, sampling_rate := 48000, center_frequency := 915, run_num := 999,
    enable_test_data := true, ping_width_ms := 15, ping_min_snr := 5,
    ping_max_len_mult := 2, ping_min_len_mult := 1,
    target_frequencies := [100, 200, 300] }

/-- Bytes the send loop hands to the transport after node 1 enqueues the
config for destination 2. -/
def c3_bytes : List Nat :=
  match send_config c3_world c3_tower1 c3_config (some 2) 5 with
  | .ok t2 =>
    match send_loop_step t2.toTransceiver with
    | some (c, _) => c.data
    | none => []
  | .error _ => []

/-- The shared world after the simulated transport delivers the unicast
send from node 1 to node 2. -/
def c3_world2 : SimWorld :=
  (send_message_with_id c3_world 1 c3_bytes (some 2) true true true 0).world

/-- The payload node 2 drains from its inbox. -/
def c3_delivered : List Nat :=
  ((receive_message c3_world2 2).1).getD []

/-- The handler invocations at node 2 after parsing and dispatching the
drained payload. -/
def c3_events : List (Nat × ReceivedData) :=
  (tower_handle_incoming c3_tower2 c3_delivered).2

/-- C3, evaluated at the failing input: the registered handler of node 2
observes the message exactly once with the configuration fields and the
send timestamp intact, but the data object it receives carries
node_id none, not the sender identity 1: the sending code never writes
the origin node id into the packet and the extractor never populates
node_id, so the claimed origin identity is unobtainable. -/
theorem config_pipeline_origin_id_missing :
    c3_events = [(7, ReceivedData.config
      { gain := 3, sampling_rate := 48000, center_frequency := 915, run_num := 999,
        enable_test_data := true, ping_width_ms := 15, ping_min_snr := 5,
        ping_max_len_mult := 2, ping_min_len_mult := 1,
        target_frequencies := [100, 200, 300], node_id := none, timestamp := some 5 })] := by
  rfl
